import Mathlib

/-!
Verification of the Smart-Coffee-Sniffer gas-sensor pipeline
(`Thesis2_Code.py`) against its specification.

Modelling conventions:
* Python floats are modelled as real numbers (`ℝ`); the float value
  `float('inf')` that the code uses as a sentinel is modelled by `⊤` in the
  extended reals `EReal`, so functions that may return infinity take values
  in `EReal`.
* The Python string sentinel `"Out of Range"` and the infinity sentinel
  returned by the concentration estimators are modelled by the dedicated
  constructors of `GasResult`.
* Python `**` on a positive base is real exponentiation, modelled by
  `Real.rpow` (the `^` below); the code guards every call with
  `rs_ro_ratio <= 0` so the base is always positive.
* The ADC gain constant is compared against `1` and `2/3`; it is modelled
  as a rational number.
* The stateful per-sample voltage read of the calibration loop is modelled
  as a function from the sample index to the voltage read.
-/

namespace CoffeeSniffer

/-- Load resistor (ohms) of the TGS 2602 voltage divider, source line 14. -/
noncomputable def LOAD_RESISTOR_OHMS_TGS : ℝ := 453.0

/-- Load resistor (ohms) of the MiCS-5524 breakout, source line 20. -/
noncomputable def LOAD_RESISTOR_OHMS_MICS : ℝ := 10000.0

/-- Configured ADS1115 gain, source line 27. -/
def ADS1115_GAIN : ℚ := 1

/-- Number of calibration readings, source line 30. -/
def CALIBRATION_READING_COUNT : ℕ := 100

/-- Reference voltage selected from the ADS1115 gain setting, source
lines 49-55 of `calculate_sensor_resistance`. -/
noncomputable def adc_reference_voltage (gain : ℚ) : ℝ :=
  if gain = 1 then 4.096 else if gain = 2 / 3 then 6.144 else 4.096

/-- Sensor resistance from the ADC voltage, source lines 34-59: returns
infinity at voltage 0, otherwise `RL * (V_ref - V_adc) / V_adc`. -/
noncomputable def calculate_sensor_resistance (adc_voltage load_resistor_ohms : ℝ)
    (gain : ℚ) : EReal :=
  if adc_voltage = 0 then ⊤
  else ((load_resistor_ohms * (adc_reference_voltage gain - adc_voltage) / adc_voltage : ℝ) :
    EReal)

/-- Load resistor chosen by the calibration routine from the sensor name,
the inline conditional of source line 83. -/
noncomputable def calibration_load_resistor (sensor_name : String) : ℝ :=
  if sensor_name = "TGS 2602" then LOAD_RESISTOR_OHMS_TGS else LOAD_RESISTOR_OHMS_MICS

/-- Calibration routine, source lines 61-90: accumulate the resistance of
`CALIBRATION_READING_COUNT` sequential voltage samples and divide by the
count.  `sample i` is the voltage returned by the i-th ADC read. -/
noncomputable def calibrate_sensor (sample : ℕ → ℝ) (sensor_name : String)
    (gain : ℚ) : EReal :=
  (∑ i ∈ Finset.range CALIBRATION_READING_COUNT,
      calculate_sensor_resistance (sample i) (calibration_load_resistor sensor_name) gain) /
    ((CALIBRATION_READING_COUNT : ℝ) : EReal)

/-- Result of a concentration estimator: a numeric ppm value, the float
infinity sentinel for a non-positive ratio, or the out-of-range sentinel
(the Python string). -/
inductive GasResult where
  | value (ppm : ℝ) : GasResult
  | infinite : GasResult
  | outOfRange : GasResult

/-- Power-law curve of the TGS 2602 ammonia estimator, source line 100. -/
noncomputable def ammonia_tgs_curve (r : ℝ) : ℝ := 0.1036 * r ^ (-6.8685 : ℝ)

/-- Power-law curve of the TGS 2602 hydrogen-sulfide estimator, source line 109. -/
noncomputable def h2s_tgs_curve (r : ℝ) : ℝ := 0.0758 * r ^ (-2.7174 : ℝ)

/-- Power-law curve of the MiCS-5524 CO estimator, source line 120. -/
noncomputable def co_curve (r : ℝ) : ℝ := 0.176 * r ^ (-1.05 : ℝ)

/-- Power-law curve of the MiCS-5524 ethanol estimator, source line 132. -/
noncomputable def ethanol_curve (r : ℝ) : ℝ := 1.15 * r ^ (-2.05 : ℝ)

/-- Power-law curve of the MiCS-5524 hydrogen estimator, source line 144. -/
noncomputable def hydrogen_curve (r : ℝ) : ℝ := 1.6 * r ^ (-1.7 : ℝ)

/-- Power-law curve of the MiCS-5524 ammonia estimator, source line 156. -/
noncomputable def ammonia_mics_curve (r : ℝ) : ℝ := 1290 * r ^ (6.72 : ℝ)

/-- Power-law curve of the MiCS-5524 methane estimator, source line 168. -/
noncomputable def methane_curve (r : ℝ) : ℝ := 1.25e16 * r ^ (-28 : ℝ)

/-- TGS 2602 ammonia estimator, source lines 94-101: no range gate. -/
noncomputable def estimate_ammonia_ppm_tgs (rs_ro_ratio : ℝ) : GasResult :=
  if rs_ro_ratio ≤ 0 then .infinite else .value (ammonia_tgs_curve rs_ro_ratio)

/-- TGS 2602 hydrogen-sulfide estimator, source lines 103-110: no range gate. -/
noncomputable def estimate_hydrogen_sulfide_ppm_tgs (rs_ro_ratio : ℝ) : GasResult :=
  if rs_ro_ratio ≤ 0 then .infinite else .value (h2s_tgs_curve rs_ro_ratio)

/-- MiCS-5524 CO estimator, source lines 114-124: inclusive gate [1, 1000]. -/
noncomputable def estimate_co_ppm (rs_ro_ratio : ℝ) : GasResult :=
  if rs_ro_ratio ≤ 0 then .infinite
  else if 1 ≤ co_curve rs_ro_ratio ∧ co_curve rs_ro_ratio ≤ 1000 then
    .value (co_curve rs_ro_ratio)
  else .outOfRange

/-- MiCS-5524 ethanol estimator, source lines 126-136: inclusive gate [10, 500]. -/
noncomputable def estimate_ethanol_ppm (rs_ro_ratio : ℝ) : GasResult :=
  if rs_ro_ratio ≤ 0 then .infinite
  else if 10 ≤ ethanol_curve rs_ro_ratio ∧ ethanol_curve rs_ro_ratio ≤ 500 then
    .value (ethanol_curve rs_ro_ratio)
  else .outOfRange

/-- MiCS-5524 hydrogen estimator, source lines 138-148: inclusive gate [1, 1000]. -/
noncomputable def estimate_hydrogen_ppm (rs_ro_ratio : ℝ) : GasResult :=
  if rs_ro_ratio ≤ 0 then .infinite
  else if 1 ≤ hydrogen_curve rs_ro_ratio ∧ hydrogen_curve rs_ro_ratio ≤ 1000 then
    .value (hydrogen_curve rs_ro_ratio)
  else .outOfRange

/-- MiCS-5524 ammonia estimator, source lines 150-160: inclusive gate [1, 500]. -/
noncomputable def estimate_ammonia_ppm_mics (rs_ro_ratio : ℝ) : GasResult :=
  if rs_ro_ratio ≤ 0 then .infinite
  else if 1 ≤ ammonia_mics_curve rs_ro_ratio ∧ ammonia_mics_curve rs_ro_ratio ≤ 500 then
    .value (ammonia_mics_curve rs_ro_ratio)
  else .outOfRange

/-- MiCS-5524 methane estimator, source lines 162-172: strict lower gate > 1000. -/
noncomputable def estimate_methane_ppm (rs_ro_ratio : ℝ) : GasResult :=
  if rs_ro_ratio ≤ 0 then .infinite
  else if 1000 < methane_curve rs_ro_ratio then .value (methane_curve rs_ro_ratio)
  else .outOfRange

/-- Per-cycle resistance ratio, the conditional expression of source
lines 208 and 217: current resistance over the baseline when the baseline
is positive, infinity otherwise. -/
noncomputable def rs_ro_ratio_of (current_rs baseline_ro : EReal) : EReal :=
  if 0 < baseline_ro then current_rs / baseline_ro else (⊤ : EReal)

/-- Ratio computed for the TGS pipeline in one monitoring cycle, source
lines 207-208. -/
noncomputable def monitor_ratio_tgs (voltage : ℝ) (baseline_ro : EReal) (gain : ℚ) : EReal :=
  rs_ro_ratio_of (calculate_sensor_resistance voltage LOAD_RESISTOR_OHMS_TGS gain) baseline_ro

/-- Ratio computed for the MiCS pipeline in one monitoring cycle, source
lines 216-217. -/
noncomputable def monitor_ratio_mics (voltage : ℝ) (baseline_ro : EReal) (gain : ℚ) : EReal :=
  rs_ro_ratio_of (calculate_sensor_resistance voltage LOAD_RESISTOR_OHMS_MICS gain) baseline_ro

/-- Reference voltage is positive for every gain. -/
theorem adc_reference_voltage_pos (gain : ℚ) : 0 < adc_reference_voltage gain := by
  unfold adc_reference_voltage
  split_ifs <;> norm_num

/-- C1: the resistance conversion returns infinity at voltage 0, and for any
nonzero voltage returns exactly `R * (ref - voltage) / voltage` with no
clamping; in particular for every voltage strictly above the reference the
negative result is returned unchanged. -/
theorem C1_resistance_conversion (gain : ℚ) (R v : ℝ) (hR : 0 < R) :
    calculate_sensor_resistance 0 R gain = ⊤ ∧
    (v ≠ 0 → calculate_sensor_resistance v R gain =
      ((R * (adc_reference_voltage gain - v) / v : ℝ) : EReal)) ∧
    (adc_reference_voltage gain < v →
      calculate_sensor_resistance v R gain =
        ((R * (adc_reference_voltage gain - v) / v : ℝ) : EReal) ∧
      calculate_sensor_resistance v R gain < 0) := by
  have href := adc_reference_voltage_pos gain
  refine ⟨by simp [calculate_sensor_resistance], fun hv => ?_, fun hlt => ?_⟩
  · simp [calculate_sensor_resistance, hv]
  · have hv0 : 0 < v := lt_trans href hlt
    have hval : calculate_sensor_resistance v R gain =
        ((R * (adc_reference_voltage gain - v) / v : ℝ) : EReal) := by
      simp [calculate_sensor_resistance, ne_of_gt hv0]
    refine ⟨hval, ?_⟩
    rw [hval]
    have hneg : R * (adc_reference_voltage gain - v) / v < 0 :=
      div_neg_of_neg_of_pos (mul_neg_of_pos_of_neg hR (sub_neg.mpr hlt)) hv0
    exact_mod_cast EReal.coe_neg'.mpr hneg

/-- C1 witness: concrete instantiation at gain 1, load 453, voltage 5. -/
theorem C1_resistance_conversion_witness :
    calculate_sensor_resistance 0 453 1 = ⊤ ∧
    calculate_sensor_resistance 5 453 1 = ((453 * (4.096 - 5) / 5 : ℝ) : EReal) ∧
    calculate_sensor_resistance 5 453 1 < 0 := by
  have h := C1_resistance_conversion 1 453 5 (by norm_num)
  have href : adc_reference_voltage 1 = 4.096 := by simp [adc_reference_voltage]
  have hlt : adc_reference_voltage 1 < 5 := by rw [href]; norm_num
  exact ⟨h.1, by rw [← href]; exact (h.2.2 hlt).1, (h.2.2 hlt).2⟩

/-- C3: every one of the seven estimators returns the infinity sentinel for
any ratio at most 0, short-circuiting before the power curve. -/
theorem C3_nonpositive_ratio (r : ℝ) (hr : r ≤ 0) :
    estimate_ammonia_ppm_tgs r = .infinite ∧
    estimate_hydrogen_sulfide_ppm_tgs r = .infinite ∧
    estimate_co_ppm r = .infinite ∧
    estimate_ethanol_ppm r = .infinite ∧
    estimate_hydrogen_ppm r = .infinite ∧
    estimate_ammonia_ppm_mics r = .infinite ∧
    estimate_methane_ppm r = .infinite := by
  refine ⟨?_, ?_, ?_, ?_, ?_, ?_, ?_⟩ <;>
    simp [estimate_ammonia_ppm_tgs, estimate_hydrogen_sulfide_ppm_tgs, estimate_co_ppm,
      estimate_ethanol_ppm, estimate_hydrogen_ppm, estimate_ammonia_ppm_mics,
      estimate_methane_ppm, hr]

/-- C3 witness: concrete instantiation at ratio 0. -/
theorem C3_nonpositive_ratio_witness :
    estimate_ammonia_ppm_tgs 0 = .infinite ∧ estimate_methane_ppm 0 = .infinite := by
  have h := C3_nonpositive_ratio 0 le_rfl
  exact ⟨h.1, h.2.2.2.2.2.2⟩

/-- C7: the reference voltage lies in the set with members 4.096 and 6.144;
it is 4.096 at gain 1, 6.144 at gain 2/3, and 4.096 for every other gain. -/
theorem C7_reference_voltage (gain : ℚ) :
    (adc_reference_voltage gain = 4.096 ∨ adc_reference_voltage gain = 6.144) ∧
    (gain = 1 → adc_reference_voltage gain = 4.096) ∧
    (gain = 2 / 3 → adc_reference_voltage gain = 6.144) ∧
    (gain ≠ 1 → gain ≠ 2 / 3 → adc_reference_voltage gain = 4.096) := by
  unfold adc_reference_voltage
  split_ifs with h1 h2 <;> simp_all
  norm_num

/-- C7 witness: concrete instantiation at gains 1, 2/3 and 2. -/
theorem C7_reference_voltage_witness :
    adc_reference_voltage 1 = 4.096 ∧
    adc_reference_voltage (2 / 3) = 6.144 ∧
    adc_reference_voltage 2 = 4.096 := by
  exact ⟨(C7_reference_voltage 1).2.1 rfl, (C7_reference_voltage (2 / 3)).2.2.1 rfl,
    (C7_reference_voltage 2).2.2.2 (by norm_num) (by norm_num)⟩

/-- C8: with load 453.0, gain 1 (reference 4.096) and voltage 2.048 the
conversion yields exactly 453.0; against baseline 453.0 the cycle ratio is
exactly 1, and the TGS ammonia estimator returns exactly 0.1036 at ratio 1. -/
theorem C8_end_to_end :
    calculate_sensor_resistance 2.048 LOAD_RESISTOR_OHMS_TGS 1 = ((453.0 : ℝ) : EReal) ∧
    rs_ro_ratio_of (calculate_sensor_resistance 2.048 LOAD_RESISTOR_OHMS_TGS 1)
      ((453.0 : ℝ) : EReal) = ((1 : ℝ) : EReal) ∧
    estimate_ammonia_ppm_tgs 1 = GasResult.value 0.1036 := by
  have href : adc_reference_voltage 1 = 4.096 := by simp [adc_reference_voltage]
  have hrs : calculate_sensor_resistance 2.048 LOAD_RESISTOR_OHMS_TGS 1 =
      ((453.0 : ℝ) : EReal) := by
    rw [calculate_sensor_resistance, if_neg (by norm_num), href, LOAD_RESISTOR_OHMS_TGS]
    norm_num
  refine ⟨hrs, ?_, ?_⟩
  · rw [hrs, rs_ro_ratio_of, if_pos (by exact_mod_cast EReal.coe_pos.mpr (by norm_num)),
      ← EReal.coe_div]
    norm_num
  · rw [estimate_ammonia_ppm_tgs, if_neg (by norm_num), ammonia_tgs_curve, Real.one_rpow,
      mul_one]

/-- C9: the calibration load resistor is 453.0 exactly for the sensor name
TGS 2602 and 10000.0 for every other name, including misspelled names. -/
theorem C9_load_selection (name : String) :
    (calibration_load_resistor name = LOAD_RESISTOR_OHMS_TGS ↔ name = "TGS 2602") ∧
    (calibration_load_resistor name = LOAD_RESISTOR_OHMS_MICS ↔ name ≠ "TGS 2602") ∧
    calibration_load_resistor "TGS2602" = 10000.0 ∧
    calibration_load_resistor "tgs 2602" = 10000.0 ∧
    calibration_load_resistor "MiCS-5524" = 10000.0 ∧
    calibration_load_resistor "TGS 2602" = 453.0 := by
  have hne : LOAD_RESISTOR_OHMS_MICS ≠ LOAD_RESISTOR_OHMS_TGS := by
    rw [LOAD_RESISTOR_OHMS_MICS, LOAD_RESISTOR_OHMS_TGS]; norm_num
  refine ⟨?_, ?_,
    by rw [calibration_load_resistor, if_neg (by decide), LOAD_RESISTOR_OHMS_MICS],
    by rw [calibration_load_resistor, if_neg (by decide), LOAD_RESISTOR_OHMS_MICS],
    by rw [calibration_load_resistor, if_neg (by decide), LOAD_RESISTOR_OHMS_MICS],
    by rw [calibration_load_resistor, if_pos rfl, LOAD_RESISTOR_OHMS_TGS]⟩ <;>
    unfold calibration_load_resistor <;> split_ifs with h <;> simp [h, hne, hne.symm]

/-- C9 witness: concrete instantiation at the exact name and at a different
name. -/
theorem C9_load_selection_witness :
    calibration_load_resistor "TGS 2602" = LOAD_RESISTOR_OHMS_TGS ∧
    calibration_load_resistor "MiCS-5524" = LOAD_RESISTOR_OHMS_MICS := by
  exact ⟨(C9_load_selection "TGS 2602").1.mpr rfl,
    (C9_load_selection "MiCS-5524").2.1.mpr (by decide)⟩

/-- C2: for any positive ratio each gated MiCS estimator returns the numeric
curve value exactly when that value lies within its tabulated range with
inclusive bounds, and the out-of-range sentinel otherwise; the methane
estimator alone gates with a strict lower bound of 1000. -/
theorem C2_gated_bounds (r : ℝ) (hr : 0 < r) :
    (estimate_co_ppm r = .value (co_curve r) ↔
      1 ≤ co_curve r ∧ co_curve r ≤ 1000) ∧
    (estimate_co_ppm r = .outOfRange ↔
      ¬(1 ≤ co_curve r ∧ co_curve r ≤ 1000)) ∧
    (estimate_ethanol_ppm r = .value (ethanol_curve r) ↔
      10 ≤ ethanol_curve r ∧ ethanol_curve r ≤ 500) ∧
    (estimate_ethanol_ppm r = .outOfRange ↔
      ¬(10 ≤ ethanol_curve r ∧ ethanol_curve r ≤ 500)) ∧
    (estimate_hydrogen_ppm r = .value (hydrogen_curve r) ↔
      1 ≤ hydrogen_curve r ∧ hydrogen_curve r ≤ 1000) ∧
    (estimate_hydrogen_ppm r = .outOfRange ↔
      ¬(1 ≤ hydrogen_curve r ∧ hydrogen_curve r ≤ 1000)) ∧
    (estimate_ammonia_ppm_mics r = .value (ammonia_mics_curve r) ↔
      1 ≤ ammonia_mics_curve r ∧ ammonia_mics_curve r ≤ 500) ∧
    (estimate_ammonia_ppm_mics r = .outOfRange ↔
      ¬(1 ≤ ammonia_mics_curve r ∧ ammonia_mics_curve r ≤ 500)) ∧
    (estimate_methane_ppm r = .value (methane_curve r) ↔ 1000 < methane_curve r) ∧
    (estimate_methane_ppm r = .outOfRange ↔ ¬(1000 < methane_curve r)) := by
  have hr' : ¬r ≤ 0 := not_le.mpr hr
  refine ⟨?_, ?_, ?_, ?_, ?_, ?_, ?_, ?_, ?_, ?_⟩ <;>
    simp only [estimate_co_ppm, estimate_ethanol_ppm, estimate_hydrogen_ppm,
      estimate_ammonia_ppm_mics, estimate_methane_ppm, if_neg hr'] <;>
    split_ifs with h <;> simp [h]

/-- C2 witness: at ratio 1 the CO estimate 0.176 is below its range and the
methane estimate 1.25e16 exceeds 1000, so CO reports out of range while
methane reports the numeric value. -/
theorem C2_gated_bounds_witness :
    estimate_co_ppm 1 = GasResult.outOfRange ∧
    estimate_methane_ppm 1 = GasResult.value (methane_curve 1) := by
  have h := C2_gated_bounds 1 (by norm_num)
  refine ⟨h.2.1.mpr ?_, h.2.2.2.2.2.2.2.2.1.mpr ?_⟩
  · rw [co_curve, Real.one_rpow, mul_one]; norm_num
  · rw [methane_curve, Real.one_rpow, mul_one]; norm_num

/-- C5: for positive load resistance the conversion is finite and strictly
positive whenever 0 < v < reference, and it is strictly decreasing in the
voltage on the positive axis. -/
theorem C5_resistance_positive_monotone (gain : ℚ) (R v v1 v2 : ℝ) (hR : 0 < R) :
    (0 < v → v < adc_reference_voltage gain →
      ∃ x : ℝ, calculate_sensor_resistance v R gain = (x : EReal) ∧ 0 < x) ∧
    (0 < v1 → v1 < v2 →
      calculate_sensor_resistance v2 R gain < calculate_sensor_resistance v1 R gain) := by
  have href := adc_reference_voltage_pos gain
  constructor
  · intro hv hvr
    refine ⟨R * (adc_reference_voltage gain - v) / v,
      by simp [calculate_sensor_resistance, hv.ne'], ?_⟩
    exact div_pos (mul_pos hR (sub_pos.mpr hvr)) hv
  · intro h1 h12
    have h2 : 0 < v2 := lt_trans h1 h12
    have key : ∀ w : ℝ, w ≠ 0 →
        R * (adc_reference_voltage gain - w) / w = R * adc_reference_voltage gain / w - R := by
      intro w hw
      field_simp
      ring
    simp only [calculate_sensor_resistance, if_neg h1.ne', if_neg h2.ne']
    rw [EReal.coe_lt_coe_iff, key v1 h1.ne', key v2 h2.ne', sub_lt_sub_iff_right]
    exact div_lt_div_of_pos_left (mul_pos hR href) h1 h12

/-- C5 witness: concrete instantiation at gain 1, load 453, with 2.048 in the
open interval below the reference and the pair 1 < 2 for monotonicity. -/
theorem C5_resistance_positive_monotone_witness :
    (∃ x : ℝ, calculate_sensor_resistance 2.048 453 1 = (x : EReal) ∧ 0 < x) ∧
    calculate_sensor_resistance 2 453 1 < calculate_sensor_resistance 1 453 1 := by
  have h := C5_resistance_positive_monotone 1 453 2.048 1 2 (by norm_num)
  have href : adc_reference_voltage 1 = 4.096 := by simp [adc_reference_voltage]
  exact ⟨h.1 (by norm_num) (by rw [href]; norm_num), h.2 (by norm_num) (by norm_num)⟩

/-- C10: on positive ratios the MiCS ammonia curve is strictly increasing
while the curves of the other six estimators, all with negative exponents,
are strictly decreasing. -/
theorem C10_curve_monotonicity (r1 r2 : ℝ) (h1 : 0 < r1) (h12 : r1 < r2) :
    ammonia_mics_curve r1 < ammonia_mics_curve r2 ∧
    ammonia_tgs_curve r2 < ammonia_tgs_curve r1 ∧
    h2s_tgs_curve r2 < h2s_tgs_curve r1 ∧
    co_curve r2 < co_curve r1 ∧
    ethanol_curve r2 < ethanol_curve r1 ∧
    hydrogen_curve r2 < hydrogen_curve r1 ∧
    methane_curve r2 < methane_curve r1 := by
  refine ⟨?_, ?_, ?_, ?_, ?_, ?_, ?_⟩ <;>
    simp only [ammonia_mics_curve, ammonia_tgs_curve, h2s_tgs_curve, co_curve, ethanol_curve,
      hydrogen_curve, methane_curve]
  · exact mul_lt_mul_of_pos_left (Real.rpow_lt_rpow h1.le h12 (by norm_num)) (by norm_num)
  · exact mul_lt_mul_of_pos_left (Real.rpow_lt_rpow_of_neg h1 h12 (by norm_num)) (by norm_num)
  · exact mul_lt_mul_of_pos_left (Real.rpow_lt_rpow_of_neg h1 h12 (by norm_num)) (by norm_num)
  · exact mul_lt_mul_of_pos_left (Real.rpow_lt_rpow_of_neg h1 h12 (by norm_num)) (by norm_num)
  · exact mul_lt_mul_of_pos_left (Real.rpow_lt_rpow_of_neg h1 h12 (by norm_num)) (by norm_num)
  · exact mul_lt_mul_of_pos_left (Real.rpow_lt_rpow_of_neg h1 h12 (by norm_num)) (by norm_num)
  · exact mul_lt_mul_of_pos_left (Real.rpow_lt_rpow_of_neg h1 h12 (by norm_num)) (by norm_num)

/-- C10 witness: concrete instantiation at the ratio pair 1 < 2. -/
theorem C10_curve_monotonicity_witness :
    ammonia_mics_curve 1 < ammonia_mics_curve 2 ∧ co_curve 2 < co_curve 1 := by
  have h := C10_curve_monotonicity 1 2 (by norm_num) (by norm_num)
  exact ⟨h.1, h.2.2.2.1⟩

/-- Sum of a constant real coerced into the extended reals. -/
theorem sum_const_coe (n : ℕ) (x : ℝ) :
    ∑ _i ∈ Finset.range n, ((x : EReal)) = (((n : ℝ) * x : ℝ) : EReal) := by
  induction n with
  | zero => simp
  | succ m ih =>
    rw [Finset.sum_range_succ, ih, ← EReal.coe_add, EReal.coe_eq_coe_iff]
    push_cast
    ring

/-- Sum of a nonempty constant family of top elements in the extended reals. -/
theorem sum_const_top (n : ℕ) (hn : n ≠ 0) :
    ∑ _i ∈ Finset.range n, (⊤ : EReal) = ⊤ := by
  induction n with
  | zero => exact absurd rfl hn
  | succ m ih =>
    rw [Finset.sum_range_succ]
    rcases Nat.eq_zero_or_pos m with h0 | hpos
    · rw [h0]
      simp
    · rw [ih hpos.ne', EReal.top_add_top]

/-- C4: the calibration routine is the arithmetic mean of the count many
converted samples, the count being 100; consequently on a constant sample
function the returned baseline is exactly the resistance of that single
voltage, for the load resistor selected by the sensor name. -/
theorem C4_calibration_mean (sample : ℕ → ℝ) (v : ℝ) (name : String) (gain : ℚ) :
    calibrate_sensor sample name gain =
      (∑ i ∈ Finset.range CALIBRATION_READING_COUNT,
        calculate_sensor_resistance (sample i) (calibration_load_resistor name) gain) /
        ((CALIBRATION_READING_COUNT : ℝ) : EReal) ∧
    CALIBRATION_READING_COUNT = 100 ∧
    calibrate_sensor (fun _ => v) name gain =
      calculate_sensor_resistance v (calibration_load_resistor name) gain := by
  refine ⟨rfl, rfl, ?_⟩
  by_cases hv : v = 0
  · subst hv
    have hterm : calculate_sensor_resistance 0 (calibration_load_resistor name) gain = ⊤ := by
      simp [calculate_sensor_resistance]
    simp only [calibrate_sensor, hterm]
    rw [sum_const_top CALIBRATION_READING_COUNT (by norm_num [CALIBRATION_READING_COUNT])]
    exact EReal.top_div_of_pos_ne_top
      (EReal.coe_pos.mpr (by norm_num [CALIBRATION_READING_COUNT]))
      (EReal.coe_ne_top _)
  · have hterm : calculate_sensor_resistance v (calibration_load_resistor name) gain =
        ((calibration_load_resistor name * (adc_reference_voltage gain - v) / v : ℝ) :
          EReal) := by
      simp [calculate_sensor_resistance, hv]
    simp only [calibrate_sensor, hterm]
    rw [sum_const_coe, ← EReal.coe_div, EReal.coe_eq_coe_iff]
    exact mul_div_cancel_left₀ _ (by norm_num [CALIBRATION_READING_COUNT])

/-- C6: in a monitoring cycle, for both the TGS and the MiCS pipeline, the
ratio fed to the estimators is the current resistance divided by the
baseline when the baseline is positive and infinity when it is not. -/
theorem C6_cycle_ratio (v : ℝ) (ro : EReal) (gain : ℚ) :
    (0 < ro →
      monitor_ratio_tgs v ro gain =
        calculate_sensor_resistance v LOAD_RESISTOR_OHMS_TGS gain / ro ∧
      monitor_ratio_mics v ro gain =
        calculate_sensor_resistance v LOAD_RESISTOR_OHMS_MICS gain / ro) ∧
    (ro ≤ 0 →
      monitor_ratio_tgs v ro gain = ⊤ ∧ monitor_ratio_mics v ro gain = ⊤) := by
  constructor
  · intro h
    simp [monitor_ratio_tgs, monitor_ratio_mics, rs_ro_ratio_of, h]
  · intro h
    simp [monitor_ratio_tgs, monitor_ratio_mics, rs_ro_ratio_of, not_lt.mpr h]

/-- C6 witness: concrete instantiation at voltage 2.048, baseline 453 for the
positive branch and baseline 0 for the invalid-calibration branch. -/
theorem C6_cycle_ratio_witness :
    monitor_ratio_tgs 2.048 ((453 : ℝ) : EReal) 1 =
      calculate_sensor_resistance 2.048 LOAD_RESISTOR_OHMS_TGS 1 / ((453 : ℝ) : EReal) ∧
    monitor_ratio_tgs 2.048 0 1 = ⊤ ∧ monitor_ratio_mics 2.048 0 1 = ⊤ := by
  have hpos := (C6_cycle_ratio 2.048 ((453 : ℝ) : EReal) 1).1 (EReal.coe_pos.mpr (by norm_num))
  have hz := (C6_cycle_ratio 2.048 0 1).2 le_rfl
  exact ⟨hpos.1, hz.1, hz.2⟩

end CoffeeSniffer
